import Mathlib

/-!
Verification of the danmu_bot control client (src/danmu_bot.py).

Shallow embedding of the parts of the program the claims concern:
the per-day quota ledger (`check_and_update_limit` and the inline check
in `main_callback_handler`), the API gateway retry/backoff loop
(`api_call`), the credential rotation protocol (`_reset_api_key`),
the search pagination cursor, the library deletion sub-flow, and the
episode batch selection handlers.
-/

namespace DanmuBot

/-! ## Quota ledger

Models `context.bot_data['user_operations']`: a record `{date, counts}`
where `counts` is a dict from user id to count with `get`-default 0.
Dates are abstracted to day stamps (`Nat`); the Python code compares
`str(date.today())` for equality only.
-/

/-- The quota record `user_operations = {'date': ..., 'counts': {...}}`.
`counts u` models `counts.get(u, 0)`. -/
structure QuotaState where
  date : Nat
  counts : Nat → Nat

/-- One quota-gated action, embedding the body of `check_and_update_limit`
(src/danmu_bot.py lines 526-553) and the identical inline block of
`main_callback_handler` (lines 857-877): admins bypass and never mutate;
otherwise the record is rolled over to today if the stored date differs,
then the count is compared against the daily limit: at or above the limit
the action is denied with no further mutation, below it the count is
incremented and the action allowed. -/
def quotaStep (adminIds : Finset Nat) (today limit uid : Nat)
    (s : QuotaState) : Bool × QuotaState :=
  if uid ∈ adminIds then (true, s)
  else
    let s1 := if s.date ≠ today then { date := today, counts := fun _ => 0 } else s
    let c := s1.counts uid
    if limit ≤ c then (false, s1)
    else (true, { s1 with counts := Function.update s1.counts uid (c + 1) })

/-- State after `n` successive quota-gated actions by the same user. -/
def quotaRun (adminIds : Finset Nat) (today limit uid : Nat)
    (s : QuotaState) : Nat → QuotaState
  | 0 => s
  | n + 1 => (quotaStep adminIds today limit uid
      (quotaRun adminIds today limit uid s n)).2

theorem quotaStep_allowed (adminIds : Finset Nat) (today limit uid : Nat)
    (s : QuotaState) (ha : uid ∉ adminIds) (hd : s.date = today)
    (hc : s.counts uid < limit) :
    quotaStep adminIds today limit uid s =
      (true, { s with counts := Function.update s.counts uid (s.counts uid + 1) }) := by
  unfold quotaStep
  rw [if_neg ha]
  simp only [hd, ne_eq, not_true_eq_false, if_false, ite_false]
  rw [if_neg (not_le.mpr hc)]

theorem quotaStep_denied (adminIds : Finset Nat) (today limit uid : Nat)
    (s : QuotaState) (ha : uid ∉ adminIds) (hd : s.date = today)
    (hc : limit ≤ s.counts uid) :
    quotaStep adminIds today limit uid s = (false, s) := by
  unfold quotaStep
  rw [if_neg ha]
  simp only [hd, ne_eq, not_true_eq_false, if_false, ite_false]
  rw [if_pos hc]

theorem quotaRun_invariant (adminIds : Finset Nat) (today limit uid : Nat)
    (s : QuotaState) (ha : uid ∉ adminIds) (hd : s.date = today)
    (h0 : s.counts uid = 0) :
    ∀ k, k ≤ limit →
      (quotaRun adminIds today limit uid s k).date = today ∧
      (quotaRun adminIds today limit uid s k).counts uid = k := by
  intro k
  induction k with
  | zero => intro _; exact ⟨hd, h0⟩
  | succ n ih =>
    intro hk
    have hn : n ≤ limit := Nat.le_of_succ_le hk
    obtain ⟨hdn, hcn⟩ := ih hn
    have hlt : (quotaRun adminIds today limit uid s n).counts uid < limit := by
      rw [hcn]; exact Nat.lt_of_succ_le hk
    have hrun : quotaRun adminIds today limit uid s (n + 1)
        = (quotaStep adminIds today limit uid
            (quotaRun adminIds today limit uid s n)).2 := rfl
    rw [hrun, quotaStep_allowed adminIds today limit uid _ ha hdn hlt]
    refine ⟨hdn, ?_⟩
    show Function.update (quotaRun adminIds today limit uid s n).counts uid
      ((quotaRun adminIds today limit uid s n).counts uid + 1) uid = n + 1
    rw [Function.update_same, hcn]

/-- C1: for a non-privileged user acting on one calendar day starting from
count 0, the stored count after k actions is k for every k ≤ limit, the
k-th action itself is allowed whenever k ≤ limit, and the (limit+1)-th
action is denied with the state (hence the stored count, which is then
limit) completely unchanged. -/
theorem quota_daily_limit (adminIds : Finset Nat) (today limit uid : Nat)
    (s : QuotaState) (ha : uid ∉ adminIds) (hd : s.date = today)
    (h0 : s.counts uid = 0) :
    (∀ k, k ≤ limit →
       (quotaRun adminIds today limit uid s k).counts uid = k) ∧
    (∀ k, k < limit →
       (quotaStep adminIds today limit uid
         (quotaRun adminIds today limit uid s k)).1 = true) ∧
    quotaStep adminIds today limit uid (quotaRun adminIds today limit uid s limit)
      = (false, quotaRun adminIds today limit uid s limit) := by
  have inv := quotaRun_invariant adminIds today limit uid s ha hd h0
  refine ⟨fun k hk => (inv k hk).2, fun k hk => ?_, ?_⟩
  · obtain ⟨hdk, hck⟩ := inv k (Nat.le_of_lt hk)
    rw [quotaStep_allowed adminIds today limit uid _ ha hdk (by rw [hck]; exact hk)]
  · obtain ⟨hdl, hcl⟩ := inv limit (Nat.le_refl _)
    exact quotaStep_denied adminIds today limit uid _ ha hdl (by rw [hcl])

/-- Witness for `quota_daily_limit` at a concrete instance. -/
theorem quota_daily_limit_witness :
    (∀ k, k ≤ 2 →
       (quotaRun ∅ 0 2 7 ⟨0, fun _ => 0⟩ k).counts 7 = k) ∧
    (∀ k, k < 2 →
       (quotaStep ∅ 0 2 7 (quotaRun ∅ 0 2 7 ⟨0, fun _ => 0⟩ k)).1 = true) ∧
    quotaStep ∅ 0 2 7 (quotaRun ∅ 0 2 7 ⟨0, fun _ => 0⟩ 2)
      = (false, quotaRun ∅ 0 2 7 ⟨0, fun _ => 0⟩ 2) :=
  quota_daily_limit ∅ 0 2 7 ⟨0, fun _ => 0⟩ (by simp) rfl rfl

/-- C8: after a date change (stored date differs from today), a
non-privileged user's first action of the new day is allowed (for a
positive configured limit), the record's date becomes today, that user's
stored count becomes 1, and every other user's count reads 0 — regardless
of all the prior day's counts. -/
theorem quota_date_rollover (adminIds : Finset Nat) (today limit uid : Nat)
    (s : QuotaState) (ha : uid ∉ adminIds) (hd : s.date ≠ today)
    (hl : 0 < limit) :
    (quotaStep adminIds today limit uid s).1 = true ∧
    ((quotaStep adminIds today limit uid s).2).date = today ∧
    ((quotaStep adminIds today limit uid s).2).counts uid = 1 ∧
    ∀ v, v ≠ uid → ((quotaStep adminIds today limit uid s).2).counts v = 0 := by
  unfold quotaStep
  rw [if_neg ha]
  simp only [hd, ne_eq, not_false_eq_true, if_true, ite_true]
  rw [if_neg (not_le.mpr hl)]
  refine ⟨rfl, rfl, ?_, ?_⟩
  · simp [Function.update]
  · intro v hv
    simp [Function.update, hv]

/-- Witness for `quota_date_rollover` at a concrete instance: prior day's
count was 41 and the limit is 10. -/
theorem quota_date_rollover_witness :
    (quotaStep ∅ 1 10 5 ⟨0, fun _ => 41⟩).1 = true ∧
    ((quotaStep ∅ 1 10 5 ⟨0, fun _ => 41⟩).2).date = 1 ∧
    ((quotaStep ∅ 1 10 5 ⟨0, fun _ => 41⟩).2).counts 5 = 1 ∧
    ∀ v, v ≠ 5 → ((quotaStep ∅ 1 10 5 ⟨0, fun _ => 41⟩).2).counts v = 0 :=
  quota_date_rollover ∅ 1 10 5 ⟨0, fun _ => 41⟩ (by simp) (by simp) (by simp)

/-! ## API gateway retry/backoff (`api_call`, src/danmu_bot.py lines 289-325)

The loop runs `attempt = 0 .. retries-1`. Each attempt issues one request,
modelled by consuming the head of a list of HTTP status codes (a missing
response models a transport failure, which raises immediately).
On a status below 400 the body is returned; on 429 the call sleeps
`2^(attempt+1)` seconds and continues; on 401 the loop breaks with
rotation desired; on any other error status it raises at once.
If the loop ended with rotation desired and auto-reset is enabled,
`_reset_api_key` runs exactly once; on its success the request is retried
one final time (consuming the next status).
-/

/-- How the retry loop of `api_call` exits. -/
inductive LoopOut where
  | ok (code : Nat)
  | hard (code : Nat)
  | auth
  | exhausted (rot : Bool)
deriving DecidableEq, Repr

/-- The `for attempt in range(retries)` loop of `api_call`: returns the
backoff sleeps performed (in order), the exit kind, and the unconsumed
responses. `rot` accumulates `should_trigger_reset`. -/
def apiLoop : Nat → Nat → List Nat → Bool → List Nat × LoopOut × List Nat
  | _, 0, rs, rot => ([], .exhausted rot, rs)
  | _, _ + 1, [], _ => ([], .hard 0, [])
  | attempt, fuel + 1, r :: rs, _rot =>
    if r < 400 then ([], .ok r, rs)
    else if r = 429 then
      match apiLoop (attempt + 1) fuel rs true with
      | (s, out, rest) => (2 ^ (attempt + 1) :: s, out, rest)
    else if r = 401 then ([], .auth, rs)
    else ([], .hard r, rs)

/-- Final outcome of one `api_call` invocation. -/
inductive ApiResult where
  | success (code : Nat)
  | hardError (code : Nat)
  | failure
deriving DecidableEq, Repr

/-- Observable behaviour of one `api_call` invocation: the backoff sleeps
performed, whether `_reset_api_key` was invoked, and the final result. -/
structure ApiOutcome where
  sleeps : List Nat
  rotationAttempted : Bool
  result : ApiResult
deriving DecidableEq, Repr

/-- After the retry loop: on a 401 break or a 429-exhausted loop with
auto-reset enabled, `_reset_api_key` is invoked; if it succeeds the
original request is retried exactly once with the new key, otherwise the
last error is surfaced (`ValueError` at line 325). -/
def apiRotateRetry (sleeps : List Nat) (rotationSucceeds : Bool)
    (rest : List Nat) : ApiOutcome :=
  if rotationSucceeds then
    match rest with
    | r :: _ => if r < 400 then ⟨sleeps, true, .success r⟩ else ⟨sleeps, true, .failure⟩
    | [] => ⟨sleeps, true, .failure⟩
  else ⟨sleeps, true, .failure⟩

/-- Embedding of `api_call` over a fixed sequence of response status
codes. `rotationEnabled` models `config.auto_reset_api_key_enabled`;
`rotationSucceeds` models the outcome of `_reset_api_key`. -/
def apiCall (retries : Nat) (rotationEnabled rotationSucceeds : Bool)
    (responses : List Nat) : ApiOutcome :=
  match apiLoop 0 retries responses false with
  | (sleeps, .ok c, _) => ⟨sleeps, false, .success c⟩
  | (sleeps, .hard c, _) => ⟨sleeps, false, .hardError c⟩
  | (sleeps, .auth, rest) =>
      if rotationEnabled then apiRotateRetry sleeps rotationSucceeds rest
      else ⟨sleeps, false, .failure⟩
  | (sleeps, .exhausted rot, rest) =>
      if rot && rotationEnabled then apiRotateRetry sleeps rotationSucceeds rest
      else ⟨sleeps, false, .failure⟩

/-- C2 counterexample: with `maxRetries = 3` and responses
429, 429, 429, 200, all three loop attempts hit 429, so the gateway
sleeps 2, 4 and then also 8 seconds, exhausts the loop, and reaches the
200 only via the credential-rotation retry — so it does not sleep only
before attempts 2 and 3, and it does attempt rotation, contrary to the
claim. -/
theorem backoff_three_429_counterexample :
    apiCall 3 true true [429, 429, 429, 200]
      = ⟨[2, 4, 8], true, .success 200⟩ ∧
    ¬ ((apiCall 3 true true [429, 429, 429, 200]).sleeps = [2, 4] ∧
       (apiCall 3 true true [429, 429, 429, 200]).rotationAttempted = false) := by
  decide

/-- C2 amended: with `maxRetries = 3`, two consecutive 429 responses
followed by a 200 make the gateway sleep before attempts 2 and 3 with
strictly increasing delays 2 s then 4 s (the `2^attempt` schedule,
attempt counted from 1) and return the successful result without
attempting credential rotation. -/
theorem backoff_two_429_then_success :
    apiCall 3 true true [429, 429, 200] = ⟨[2, 4], false, .success 200⟩ := by
  decide

/-! ## Credential rotation (`_reset_api_key`, src/danmu_bot.py lines 262-287)

The protocol: POST admin credentials to the auth-token endpoint; extract
`accessToken` from the response; POST to the key-regeneration endpoint
with the bearer token; extract `value`; only then assign
`context.bot_data['danmu_server_api_key'] = new_key`. Each response is
modelled as `none` (HTTP/transport error raised by that step) or
`some none` (success without the required field) or `some (some v)`.
-/

/-- The two remote responses the rotation protocol consumes. -/
structure RotationInput where
  loginResp : Option (Option String)
  regenResp : Option (Option String)

/-- Embedding of `_reset_api_key`: returns the stored API key after the
attempt and whether the rotation reported success. -/
def resetApiKey (currentKey : String) (inp : RotationInput) : String × Bool :=
  match inp.loginResp with
  | none => (currentKey, false)
  | some none => (currentKey, false)
  | some (some _tok) =>
    match inp.regenResp with
    | none => (currentKey, false)
    | some none => (currentKey, false)
    | some (some newKey) => (newKey, true)

/-- C7: if any of the four protocol steps fails — admin login raises, the
login response has no access token, key regeneration raises, or the
regeneration response has no new key — the stored API key is left exactly
as it was and the rotation reports failure. -/
theorem rotation_failure_preserves_key (key : String) (inp : RotationInput)
    (h : inp.loginResp = none ∨ inp.loginResp = some none ∨
         inp.regenResp = none ∨ inp.regenResp = some none) :
    (resetApiKey key inp).1 = key ∧ (resetApiKey key inp).2 = false := by
  unfold resetApiKey
  rcases hl : inp.loginResp with _ | tok
  · exact ⟨rfl, rfl⟩
  · rcases tok with _ | t
    · exact ⟨rfl, rfl⟩
    · rcases hr : inp.regenResp with _ | v
      · exact ⟨rfl, rfl⟩
      · rcases v with _ | k
        · exact ⟨rfl, rfl⟩
        · exfalso
          rcases h with h | h | h | h
          · rw [hl] at h; exact Option.noConfusion h
          · rw [hl] at h; exact Option.noConfusion (Option.some.inj h)
          · rw [hr] at h; exact Option.noConfusion h
          · rw [hr] at h; exact Option.noConfusion (Option.some.inj h)

/-- Witness for `rotation_failure_preserves_key`: login succeeds but the
response carries no access token. -/
theorem rotation_failure_preserves_key_witness :
    (resetApiKey "oldKey" ⟨some none, some (some "newKey")⟩).1 = "oldKey" ∧
    (resetApiKey "oldKey" ⟨some none, some (some "newKey")⟩).2 = false :=
  rotation_failure_preserves_key "oldKey" ⟨some none, some (some "newKey")⟩
    (Or.inr (Or.inl rfl))

/-! ## Rotation is not single-flight (C5)

Neither `api_call` nor `_reset_api_key` reads or writes any shared
in-flight marker: there is no lock, flag or pending-future in the program
state, so every gateway call whose retry loop ends rotation-desired
invokes `_reset_api_key` itself. Two concurrent calls that both receive
401 therefore each execute the full rotation protocol, and the number of
protocol executions is the sum over the calls. -/

/-- Number of `_reset_api_key` executions one `api_call` performs. -/
def rotationRuns (retries : Nat) (rotationEnabled : Bool)
    (responses : List Nat) : Nat :=
  if (apiCall retries rotationEnabled true responses).rotationAttempted then 1 else 0

/-- Total rotation-protocol executions for two interleaved gateway calls:
with no shared in-flight guard anywhere in the code, each call triggers
its own rotation independently of the other, under every interleaving. -/
def concurrentRotationRuns (r1 r2 : List Nat) : Nat :=
  rotationRuns 3 true r1 + rotationRuns 3 true r2

/-- C5 (code bug): two concurrent gateway calls that both receive 401
(and then a 200 on their post-rotation retry) execute the rotation
protocol twice, not once — the code has no single-flight guard. -/
theorem rotation_not_single_flight :
    concurrentRotationRuns [401, 200] [401, 200] = 2 ∧
    concurrentRotationRuns [401, 200] [401, 200] ≠ 1 := by
  decide

/-! ## Search pagination cursor (src/danmu_bot.py lines 879-884)

`PAGE_PREV`/`PAGE_NEXT` update `search_start_index`:
`new_index = current_index + page_size if NEXT else max(0, current_index - page_size)`.
Python ints are modelled as `Int`. -/

/-- The cursor update performed by the `PAGE_PREV`/`PAGE_NEXT` branch of
`main_callback_handler`. -/
def searchPageMove (isNext : Bool) (currentIndex pageSize : Int) : Int :=
  if isNext then currentIndex + pageSize else max 0 (currentIndex - pageSize)

/-- C6 counterexample: with cursor 0, page size 5 and a cached result
list of length 3, a `PageNext` event sets the cursor to 5, at or beyond
the list length — the handler applies no upper clamp. -/
theorem search_cursor_not_upper_clamped :
    searchPageMove true 0 5 = 5 ∧ ¬ searchPageMove true 0 5 < 3 := by
  decide

/-- C6 amended: `PagePrev` moves the cursor down by exactly one page size
clamped below at 0 (so the cursor never becomes negative), and `PageNext`
moves it up by exactly one page size with no upper clamp whatsoever — in
particular the result of `PageNext` is independent of the cached list
length and can reach or exceed it. -/
theorem search_cursor_moves (c p : Int) :
    0 ≤ searchPageMove false c p ∧
    (p ≤ c → searchPageMove false c p = c - p) ∧
    (c < p → searchPageMove false c p = 0) ∧
    searchPageMove true c p = c + p := by
  refine ⟨?_, ?_, ?_, rfl⟩
  · exact le_max_left 0 (c - p)
  · intro h
    exact max_eq_right (sub_nonneg.mpr h)
  · intro h
    exact max_eq_left (sub_nonpos.mpr (le_of_lt h))

/-- Witness for `search_cursor_moves` at cursor 7, page size 5,
discharging the in-bounds hypothesis concretely. -/
theorem search_cursor_moves_witness :
    searchPageMove false 7 5 = 7 - 5 ∧ searchPageMove true 7 5 = 7 + 5 :=
  ⟨(search_cursor_moves 7 5).2.1 (by decide), (search_cursor_moves 7 5).2.2.2⟩

/-! ## Library deletion sub-flow (C3)

Events of the deletion workflow: the `/remove` command caches the matched
items in `user_data['remove_list']` (lines 783-815); the
`REQUEST_DELETE_CONFIRM` branch (lines 986-989) only renders a yes/no
prompt — it stores nothing in the session; the `EXECUTE_DELETE` branch
(lines 990-994) indexes `remove_list` and issues the remote delete with
no check that a confirmation was ever requested. Remote calls are
collected as a trace. -/

/-- Remote calls the deletion workflow can issue. -/
inductive RemoteCall where
  | getLibrary
  | deleteAnime (id : Nat)
deriving DecidableEq, Repr

/-- Action events of the deletion workflow. -/
inductive LibEvent where
  | removeCmd (items : List Nat)
  | requestDeleteConfirm (idx : Nat)
  | executeDelete (idx : Nat)
  | cancelDelete
deriving DecidableEq, Repr

/-- Whether an event is a `REQUEST_DELETE_CONFIRM`. -/
def LibEvent.isConfirmReq : LibEvent → Bool
  | .requestDeleteConfirm _ => true
  | _ => false

/-- Per-conversation session state of the deletion workflow:
`user_data['remove_list']`, read with default `[]`. -/
structure LibSession where
  removeList : List Nat
deriving DecidableEq, Repr

/-- One step of the deletion workflow: new session state plus the remote
calls issued. `removeCmd` fetches the library and caches the matched
items; `requestDeleteConfirm` edits the prompt message only (no state, no
remote call); `executeDelete` by a privileged user issues the delete for
the item at the given index of the cached list whenever that index is in
bounds (an out-of-bounds index raises before any call); `cancelDelete`
only edits the message. Non-privileged users fall through the admin-gated
branches with no effect. -/
def libHandle (isAdmin : Bool) (s : LibSession) :
    LibEvent → LibSession × List RemoteCall
  | .removeCmd items => (⟨items⟩, [.getLibrary])
  | .requestDeleteConfirm _ => (s, [])
  | .executeDelete idx =>
      if isAdmin then
        match s.removeList.get? idx with
        | some aid => (s, [.deleteAnime aid])
        | none => (s, [])
      else (s, [])
  | .cancelDelete => (s, [])

/-- Run a list of deletion-workflow events, collecting all remote calls. -/
def libRun (isAdmin : Bool) : LibSession → List LibEvent →
    LibSession × List RemoteCall
  | s, [] => (s, [])
  | s, e :: es =>
    match libHandle isAdmin s e with
    | (s1, cs) =>
      match libRun isAdmin s1 es with
      | (s2, cs2) => (s2, cs ++ cs2)

/-- C3 counterexample: the session trace consisting of a `/remove`
listing followed directly by `ExecuteDelete 0` — with no
`RequestDeleteConfirm` event anywhere in the trace — issues the remote
library delete call for item 42. -/
theorem delete_issued_without_confirm :
    (libRun true ⟨[]⟩ [.removeCmd [42], .executeDelete 0]).2
      = [.getLibrary, .deleteAnime 42] ∧
    ([LibEvent.removeCmd [42], LibEvent.executeDelete 0].all
      (fun e => !e.isConfirmReq)) = true := by
  decide

/-- C3 amended: an `ExecuteDelete` event for an in-bounds index `i` by a
privileged user issues the remote delete for the cached item at `i`
whether or not a `RequestDeleteConfirm` for `i` occurred earlier in the
session — the session keeps no confirm-pending state at all
(`RequestDeleteConfirm` leaves the session unchanged and issues no remote
call); only an out-of-bounds index or a non-privileged user yields no
delete call. -/
theorem exec_delete_unguarded (items : List Nat) (idx : Nat)
    (h : idx < items.length) :
    (libRun true ⟨[]⟩ [.removeCmd items, .executeDelete idx]).2
      = [.getLibrary, .deleteAnime (items.get ⟨idx, h⟩)] ∧
    (∀ s : LibSession, libHandle true s (.requestDeleteConfirm idx) = (s, [])) ∧
    (∀ s : LibSession, s.removeList.length ≤ idx →
      libHandle true s (.executeDelete idx) = (s, [])) ∧
    (∀ s : LibSession, libHandle false s (.executeDelete idx) = (s, [])) := by
  refine ⟨?_, fun s => rfl, fun s hs => ?_, fun s => rfl⟩
  · simp [libRun, libHandle, List.getElem?_eq_getElem h]
  · simp [libHandle, List.getElem?_eq_none hs]

/-- Witness for `exec_delete_unguarded` on the two-item list [42, 43]. -/
theorem exec_delete_unguarded_witness :
    (libRun true ⟨[]⟩ [.removeCmd [42, 43], .executeDelete 1]).2
      = [.getLibrary, .deleteAnime ([42, 43].get ⟨1, by decide⟩)] ∧
    (∀ s : LibSession, libHandle true s (.requestDeleteConfirm 1) = (s, [])) ∧
    (∀ s : LibSession, s.removeList.length ≤ 1 →
      libHandle true s (.executeDelete 1) = (s, [])) ∧
    (∀ s : LibSession, libHandle false s (.executeDelete 1) = (s, [])) :=
  exec_delete_unguarded [42, 43] 1 (by decide)

/-! ## Episode batch selection (src/danmu_bot.py lines 492-523, 936-946)

Per work item, `bot_data['ep_list_{id}']` caches the fetched episode
list; per (work item, conversation), `user_data['selection_{id}_{chat}']`
holds a Python set of episode numbers, read everywhere with an
empty-set default (`setdefault(..., set())` / `get(..., [])`), so a
missing entry is identified with the empty selection. The handlers take
the current page from the callback payload only to re-render. -/

/-- A cached episode entry (field `episodeNo`). -/
structure Episode where
  episodeNo : Nat
deriving DecidableEq, Repr

/-- Session state of the episode-selection workflow for one
(work item, conversation): the multi-select set and the page currently
rendered. -/
structure EpisodeSession where
  selection : Finset Nat
  page : Nat
deriving DecidableEq

/-- The set update of the `TOGGLE_EPISODE_SELECT` branch: remove the
episode number if present, add it otherwise. -/
def toggleSel (sel : Finset Nat) (ep : Nat) : Finset Nat :=
  if ep ∈ sel then sel.erase ep else insert ep sel

theorem toggleSel_toggleSel (sel : Finset Nat) (ep : Nat) :
    toggleSel (toggleSel sel ep) ep = sel := by
  by_cases hmem : ep ∈ sel
  · have h1 : toggleSel sel ep = sel.erase ep := by
      rw [toggleSel, if_pos hmem]
    rw [h1, toggleSel, if_neg (Finset.not_mem_erase ep sel)]
    exact Finset.insert_erase hmem
  · have h1 : toggleSel sel ep = insert ep sel := by
      rw [toggleSel, if_neg hmem]
    rw [h1, toggleSel, if_pos (Finset.mem_insert_self ep sel)]
    exact Finset.erase_insert hmem

/-- `TOGGLE_EPISODE_SELECT` handler (lines 937-941). -/
def epToggle (s : EpisodeSession) (ep page : Nat) : EpisodeSession :=
  ⟨toggleSel s.selection ep, page⟩

/-- `SELECT_ALL_EPISODES` handler (lines 942-944): the selection becomes
the set of `episodeNo` values of the cached episode list. -/
def epSelectAll (cached : List Episode) (_s : EpisodeSession)
    (page : Nat) : EpisodeSession :=
  ⟨(cached.map Episode.episodeNo).toFinset, page⟩

/-- `CLEAR_EPISODE_SELECTION` handler (lines 945-946). -/
def epClear (_s : EpisodeSession) (page : Nat) : EpisodeSession :=
  ⟨∅, page⟩

/-- `PAGE_EPISODE_SELECTION` handler (line 936): re-renders at the new
page; the selection value is untouched. -/
def epPageNav (s : EpisodeSession) (page : Nat) : EpisodeSession :=
  ⟨s.selection, page⟩

/-- C4: toggling an episode number twice returns the selection to its
original value; select-all makes it exactly the set of episode numbers
of the fetched list; clear makes it empty; each of these updates is
independent of the page carried in the event, and page navigation leaves
the selection unchanged. -/
theorem episode_selection_algebra (s : EpisodeSession)
    (cached : List Episode) (ep p q : Nat) :
    (epToggle (epToggle s ep p) ep q).selection = s.selection ∧
    (∀ n, n ∈ (epSelectAll cached s p).selection ↔
      ∃ e ∈ cached, e.episodeNo = n) ∧
    (epClear s p).selection = ∅ ∧
    (epToggle s ep p).selection = (epToggle s ep q).selection ∧
    (epSelectAll cached s p).selection = (epSelectAll cached s q).selection ∧
    (epClear s p).selection = (epClear s q).selection ∧
    (epPageNav s p).selection = s.selection := by
  refine ⟨toggleSel_toggleSel s.selection ep, fun n => ?_, rfl, rfl, rfl, rfl, rfl⟩
  show n ∈ (cached.map Episode.episodeNo).toFinset ↔ _
  rw [List.mem_toFinset]
  exact List.mem_map

/-! ## Batch import dispatch (src/danmu_bot.py lines 857-877, 947-958)

A `BATCH_IMPORT_EPISODES` event first passes through the inline quota
gate of `main_callback_handler` (admins bypass; non-admins are counted
and possibly denied), and only then reaches the dispatch branch, which
reads the sorted selection; an empty selection answers with a
user-visible alert and returns before any remote call; otherwise the
remote batch-import endpoint is called with the sorted episode list. -/

/-- Outcome of dispatching one `BATCH_IMPORT_EPISODES` event.
`submitted eps` is the remote import call with payload `eps`; the other
outcomes issue no remote import call. -/
inductive BatchOutcome where
  | quotaDenied
  | rejectedEmptySelection
  | submitted (eps : List Nat)
deriving DecidableEq, Repr

/-- Embedding of the `BATCH_IMPORT_EPISODES` path of
`main_callback_handler`: quota gate first, then the empty-selection
check, then the remote call with `sorted(list(selection))`. -/
def handleBatchImport (adminIds : Finset Nat) (today limit uid : Nat)
    (qs : QuotaState) (sel : Finset Nat) : QuotaState × BatchOutcome :=
  match quotaStep adminIds today limit uid qs with
  | (allowed, qs1) =>
    if allowed then
      if sel = ∅ then (qs1, .rejectedEmptySelection)
      else (qs1, .submitted (sel.sort (· ≤ ·)))
    else (qs1, .quotaDenied)

/-- C9: a batch-import submit that passes the quota gate with an empty
selection is rejected with a user-visible notice and no remote call; the
remote endpoint is invoked exactly when the selection is non-empty, and
then with the sorted list of selected episode numbers. -/
theorem batch_import_requires_selection (adminIds : Finset Nat)
    (today limit uid : Nat) (qs : QuotaState) (sel : Finset Nat) :
    ((quotaStep adminIds today limit uid qs).1 = true → sel = ∅ →
      (handleBatchImport adminIds today limit uid qs sel).2
        = .rejectedEmptySelection) ∧
    (∀ eps, (handleBatchImport adminIds today limit uid qs sel).2
        = .submitted eps → sel ≠ ∅ ∧ eps = sel.sort (· ≤ ·)) := by
  constructor
  · intro hall hsel
    unfold handleBatchImport
    rcases hq : quotaStep adminIds today limit uid qs with ⟨allowed, qs1⟩
    rw [hq] at hall
    simp only [Prod.fst] at hall
    simp [hall, hsel]
  · intro eps heq
    unfold handleBatchImport at heq
    rcases hq : quotaStep adminIds today limit uid qs with ⟨allowed, qs1⟩
    rw [hq] at heq
    rcases allowed with _ | _
    · simp at heq
    · by_cases hsel : sel = ∅
      · simp [hsel] at heq
      · simp [hsel] at heq
        exact ⟨hsel, heq.symm⟩

/-- Witness for `batch_import_requires_selection`: a fresh non-admin user
with an empty selection is rejected without a remote call. -/
theorem batch_import_requires_selection_witness :
    (handleBatchImport ∅ 0 10 7 ⟨0, fun _ => 0⟩ ∅).2
      = .rejectedEmptySelection :=
  (batch_import_requires_selection ∅ 0 10 7 ⟨0, fun _ => 0⟩ ∅).1
    (by decide) rfl

/-- C10: for a non-privileged user below the daily limit, dispatching
`BATCH_IMPORT_EPISODES` with an empty selection still consumes one unit
of quota — the stored count increases by 1 — even though the action is
then rejected with no remote call: the quota check-and-increment runs
before the empty-selection check. -/
theorem batch_import_empty_still_counts (adminIds : Finset Nat)
    (today limit uid : Nat) (qs : QuotaState) (ha : uid ∉ adminIds)
    (hd : qs.date = today) (hc : qs.counts uid < limit) :
    (handleBatchImport adminIds today limit uid qs ∅).2
      = .rejectedEmptySelection ∧
    ((handleBatchImport adminIds today limit uid qs ∅).1).counts uid
      = qs.counts uid + 1 := by
  unfold handleBatchImport
  rw [quotaStep_allowed adminIds today limit uid qs ha hd hc]
  simp [Function.update_same]

/-- Witness for `batch_import_empty_still_counts`: non-admin user 7 at
count 0, limit 10, empty selection — rejected, count becomes 1. -/
theorem batch_import_empty_still_counts_witness :
    (handleBatchImport ∅ 0 10 7 ⟨0, fun _ => 0⟩ ∅).2
      = .rejectedEmptySelection ∧
    ((handleBatchImport ∅ 0 10 7 ⟨0, fun _ => 0⟩ ∅).1).counts 7 = 0 + 1 :=
  batch_import_empty_still_counts ∅ 0 10 7 ⟨0, fun _ => 0⟩
    (by simp) rfl (by decide)

end DanmuBot
